import Mathlib

/-!
Shallow embedding of `examples/callbackHttpMqtt/log_receiver.py`
(AdvancedLogger repository).

The script is an HTTP server with two routes:
  * `do_POST` on `/test` reads the body, parses it with `json.loads`,
    and calls `_process_log_entry`; it answers 400 on an empty body or a
    JSON syntax error, 200 on success, 404 on any other path, and 500
    when `_process_log_entry` raises (the outer `except` also prints
    an error line to the console before `send_error(500, ...)`).
  * `do_GET` on `/status` answers 200 with a JSON body holding
    `logs_received = log_count`; any other path answers 404.

Modelling decisions, each tied to the source:
  * JSON values are the inductive `Json`; Python dicts are association
    lists (`JObj`) where a later binding for the same key wins, as in
    `json.loads` with duplicate keys.  Numbers are integers (no claim
    involves floating point).
  * `json.loads` itself is Python library code, so a request body is
    abstracted as `Body`: empty (Content-Length 0), syntactically
    invalid JSON, or a parsed `Json` value.
  * Python `str()` of a parsed JSON scalar is `pyStr`; for containers it
    recurses like `repr` (string-escaping details inside containers are
    not needed by any claim).
  * `_process_log_entry` mutates the class attribute `log_count` FIRST,
    then extracts fields with `.get`.  On a non-dict value `.get` raises
    `AttributeError`; on a dict whose `level` value is neither absent
    nor a string, `colors.get(level, '')` raises `TypeError` (unhashable
    list/dict) or `f"{level:8s}"` raises at formatting (non-`str`
    argument to format code `s`).  Both raise before anything is
    printed, so the observable outcome is the same and is modelled by
    `levelVal` returning `none`.  The raised exception propagates to
    `do_POST`, which prints an error line and answers 500 - with the
    counter increment already applied.
  * The console sink is the handler's explicit `print` calls (the log
    line, the file-write error line, the request-error line).  The
    request logging that `BaseHTTPRequestHandler` itself performs, and
    the text of exception messages, belong to the hosting HTTP layer /
    runtime and are outside the model; modelled error lines are fixed
    marker strings.
  * The file sink is the list of chunks passed to `f.write`, in order;
    a write failure is modelled by the per-request flag `writeOk`.
  * `datetime`-derived fields of the `/status` body (`uptime_seconds`,
    `start_time`) are real-time values and are not modelled.
-/

/-! ### JSON values (result of `json.loads`) -/

mutual
inductive Json where
  | null : Json
  | bool (b : Bool) : Json
  | num (i : Int) : Json
  | str (s : String) : Json
  | arr (elems : JArr) : Json
  | obj (fields : JObj) : Json

inductive JArr where
  | nil : JArr
  | cons (hd : Json) (tl : JArr) : JArr

inductive JObj where
  | nil : JObj
  | cons (k : String) (v : Json) (tl : JObj) : JObj
end

/-- Decimal digit character; only ever applied to `n < 10`. -/
def digitChar : Nat → Char
  | 0 => '0' | 1 => '1' | 2 => '2' | 3 => '3' | 4 => '4'
  | 5 => '5' | 6 => '6' | 7 => '7' | 8 => '8' | _ => '9'

/-- Decimal digits of `n`, most significant first, with explicit fuel so
that the definition is structurally recursive.  `natRepr` always supplies
enough fuel. -/
def natDigitsFuel : Nat → Nat → List Char
  | 0, _ => []
  | fuel + 1, n =>
    if n < 10 then [digitChar n]
    else natDigitsFuel fuel (n / 10) ++ [digitChar (n % 10)]

/-- Python `str()` of a non-negative integer. -/
def natRepr (n : Nat) : String :=
  String.mk (natDigitsFuel (n + 1) n)

/-- Python `str()` of an integer. -/
def intRepr (i : Int) : String :=
  if i < 0 then "-" ++ natRepr (-i).toNat else natRepr i.toNat

def joinComma (l : List String) : String :=
  String.intercalate ", " l

mutual
/-- Python `repr()` of a parsed JSON value (used by `str()` inside
containers). -/
def pyRepr : Json → String
  | .null => "None"
  | .bool true => "True"
  | .bool false => "False"
  | .num i => intRepr i
  | .str s => "\x27" ++ s ++ "\x27"
  | .arr l => "[" ++ joinComma (pyReprArr l) ++ "]"
  | .obj d => "\x7b" ++ joinComma (pyReprObj d) ++ "\x7d"

def pyReprArr : JArr → List String
  | .nil => []
  | .cons h t => pyRepr h :: pyReprArr t

def pyReprObj : JObj → List String
  | .nil => []
  | .cons k v t => ("\x27" ++ k ++ "\x27: " ++ pyRepr v) :: pyReprObj t
end

/-- Python `str()` of a parsed JSON value, as interpolated by an
f-string. -/
def pyStr : Json → String
  | .null => "None"
  | .bool true => "True"
  | .bool false => "False"
  | .num i => intRepr i
  | .str s => s
  | j => pyRepr j

/-- Dict lookup (`log_data.get(key)` / `key in log_data`): a later
binding for the same key wins, as in `json.loads`. -/
def jget : JObj → String → Option Json
  | .nil, _ => none
  | .cons k v t, key =>
    match jget t key with
    | some r => some r
    | none => if k = key then some v else none

/-- `key in log_data`. -/
def hasKey (d : JObj) (k : String) : Bool :=
  (jget d k).isSome

/-- `str(log_data.get(key, 'N/A'))` - the rendering of a field as the
f-strings of `_process_log_entry` interpolate it. -/
def renderField (d : JObj) (k : String) : String :=
  pyStr ((jget d k).getD (.str "N/A"))

/-- The raw `level` value as it survives `colors.get(level, '')` and
`f"{level:8s}"`: absent gives the default string `'N/A'`, a string value
gives itself, and any non-string value raises (modelled as `none`). -/
def levelVal (d : JObj) : Option String :=
  match jget d "level" with
  | none => some "N/A"
  | some (.str s) => some s
  | some _ => none

/-- `level` will format without raising. -/
def levelOk (d : JObj) : Bool :=
  (levelVal d).isSome

/-- The `colors` table of `_process_log_entry`, with default `''`. -/
def colorOf (level : String) : String :=
  if level = "VERBOSE" then "\x1b[37m"
  else if level = "DEBUG" then "\x1b[36m"
  else if level = "INFO" then "\x1b[32m"
  else if level = "WARNING" then "\x1b[33m"
  else if level = "ERROR" then "\x1b[31m"
  else if level = "FATAL" then "\x1b[35m"
  else ""

/-- `f"{level:8s}"`: left-justify, pad with spaces to width 8. -/
def padLevel8 (s : String) : String :=
  s ++ String.mk (List.replicate (8 - s.length) ' ')

/-- `f"{n:04d}"`: zero-pad on the left to a minimum width of 4. -/
def pad04 (n : Nat) : String :=
  String.mk (List.replicate (4 - (natRepr n).length) '0') ++ natRepr n

/-- The `location` variable: `file:function:line` when the key `line` is
present in the posted object, `file:function` otherwise. -/
def locationOf (d : JObj) : String :=
  if hasKey d "line" then
    renderField d "file" ++ ":" ++ renderField d "function" ++ ":" ++ renderField d "line"
  else
    renderField d "file" ++ ":" ++ renderField d "function"

/-- The colour-free core shared by `console_output` and `file_output`:
`[NNNN] [timestamp] [millis ms] [LEVEL   ] [Core C] [location] message`. -/
def lineCore (n : Nat) (lvl : String) (d : JObj) : String :=
  "[" ++ pad04 n ++ "] [" ++ renderField d "timestamp" ++ "] ["
    ++ renderField d "millis" ++ " ms] [" ++ padLevel8 lvl ++ "] [Core "
    ++ renderField d "core" ++ "] [" ++ locationOf d ++ "] "
    ++ renderField d "message"

/-- `console_output`: the core wrapped in the level colour and the ANSI
reset sequence. -/
def consoleLineOf (n : Nat) (lvl : String) (d : JObj) : String :=
  colorOf lvl ++ lineCore n lvl d ++ "\x1b[0m"

/-! ### Server state and request handling -/

/-- The class-level mutable state of `LogReceiver` plus the two output
sinks.  `saveToFile` and `logFilename` are set once at startup. -/
structure ServerState where
  logCount : Nat
  console : List String
  file : List String
  saveToFile : Bool
  logFilename : String
deriving DecidableEq

def initState (save : Bool) (fn : String) : ServerState :=
  { logCount := 0, console := [], file := [], saveToFile := save, logFilename := fn }

/-- `_process_log_entry`.  Returns the new state and `some msg` when the
Python code raises (non-dict argument, or a `level` value that fails
`colors.get` / `f"{level:8s}"`).  The `log_count` increment happens
before any of that, exactly as in the source. -/
def processLogEntry (s : ServerState) (writeOk : Bool) (j : Json) :
    ServerState × Option String :=
  let s1 : ServerState := { s with logCount := s.logCount + 1 }
  match j with
  | .obj d =>
    match levelVal d with
    | none => (s1, some "level value not formattable")
    | some lvl =>
      let s2 : ServerState :=
        { s1 with console := s1.console ++ [consoleLineOf s1.logCount lvl d] }
      if s2.saveToFile then
        if writeOk then
          ({ s2 with file := s2.file ++ [lineCore s1.logCount lvl d ++ "\n"] }, none)
        else
          ({ s2 with console := s2.console ++ ["Error writing to file"] }, none)
      else
        (s2, none)
  | _ => (s1, some "AttributeError: no attribute get")

/-- A request body as seen after `Content-Length` handling and
`json.loads`: empty, syntactically invalid JSON, or a parsed value. -/
inductive Body where
  | empty : Body
  | malformed : Body
  | json (j : Json) : Body

/-- `do_POST`: 404 off the ingestion path, 400 for an empty body or a
JSON syntax error, 200 on success, 500 (after printing an error line)
when `_process_log_entry` raises. -/
def doPOST (s : ServerState) (path : String) (body : Body) (writeOk : Bool) :
    ServerState × Nat :=
  if path = "/test" then
    match body with
    | .empty => (s, 400)
    | .malformed => (s, 400)
    | .json j =>
      let r := processLogEntry s writeOk j
      match r.2 with
      | none => (r.1, 200)
      | some _ =>
        ({ r.1 with console := r.1.console ++ ["Error processing request"] }, 500)
  else
    (s, 404)

/-- The JSON body answered by `do_GET` on `/status` (real-time fields
`uptime_seconds` and `start_time` are outside the model). -/
structure StatusBody where
  status : String
  logs_received : Nat
  saving_to_file : Bool
  log_filename : Option String

/-- Result of `do_GET`. -/
structure GetReply where
  state : ServerState
  status : Nat
  body : Option StatusBody

/-- `do_GET`: 200 with the stats object on `/status`, 404 elsewhere. -/
def doGET (s : ServerState) (path : String) : GetReply :=
  if path = "/status" then
    ⟨s, 200, some ⟨"running", s.logCount, s.saveToFile,
      if s.saveToFile then some s.logFilename else none⟩⟩
  else
    ⟨s, 404, none⟩

/-- One request: a POST (with its per-request file-write outcome) or a
GET. -/
inductive Request where
  | post (path : String) (body : Body) (writeOk : Bool) : Request
  | get (path : String) : Request

/-- Dispatch one request, returning the new state and the status code. -/
def handle (s : ServerState) : Request → ServerState × Nat
  | .post p b w => doPOST s p b w
  | .get p => ((doGET s p).state, (doGET s p).status)

/-- Run a sequence of requests. -/
def run : ServerState → List Request → ServerState
  | s, [] => s
  | s, r :: rs => run (handle s r).1 rs

/-- A POST to the ingestion path whose body is syntactically valid
JSON - exactly the requests on which `_process_log_entry` is entered. -/
def isJsonIngest : Request → Bool
  | .post p (.json _) _ => p == "/test"
  | _ => false

def countJsonIngest (rs : List Request) : Nat :=
  rs.countP isJsonIngest

/-- The eight known fields of a log entry. -/
def logFields : List String :=
  ["timestamp", "millis", "level", "core", "file", "function", "line", "message"]

/-- `s` contains neither a newline nor the ANSI escape character. -/
def noNlEscB (s : String) : Bool :=
  s.data.all (fun c => c != '\n' && c != '\x1b')

/-- All eight fields of `d` render without newlines or escape
characters. -/
def cleanFieldsB (d : JObj) : Bool :=
  logFields.all (fun k => noNlEscB (renderField d k))

/-! ### Helper lemmas -/

theorem processLogEntry_logCount (s : ServerState) (w : Bool) (j : Json) :
    (processLogEntry s w j).1.logCount = s.logCount + 1 := by
  unfold processLogEntry
  cases j <;> simp
  case obj d =>
    cases h : levelVal d <;> simp
    split <;> (try split) <;> simp

theorem handle_logCount (s : ServerState) (r : Request) :
    (handle s r).1.logCount = s.logCount + (if isJsonIngest r = true then 1 else 0) := by
  cases r with
  | get p =>
    simp [handle, doGET, isJsonIngest]
    split <;> simp
  | post p b w =>
    simp only [handle, doPOST, isJsonIngest]
    by_cases hp : p = "/test"
    · cases b with
      | empty => simp [hp]
      | malformed => simp [hp]
      | json j =>
        simp only [hp, if_true, beq_self_eq_true, if_pos]
        cases hm : (processLogEntry s w j).2 <;>
          simp [hm, processLogEntry_logCount]
    · cases b <;> simp [hp]

theorem run_logCount (rs : List Request) :
    ∀ s : ServerState, (run s rs).logCount = s.logCount + countJsonIngest rs := by
  induction rs with
  | nil => intro s; simp [run, countJsonIngest]
  | cons r rs ih =>
    intro s
    simp only [run, countJsonIngest, List.countP_cons] at *
    rw [ih, handle_logCount]
    by_cases h : isJsonIngest r = true <;> simp [h] <;> omega

theorem noNlEscB_append (a b : String) :
    noNlEscB (a ++ b) = (noNlEscB a && noNlEscB b) := by
  simp [noNlEscB, String.data_append, List.all_append]

theorem digitChar_clean (n : Nat) :
    (digitChar n != '\n' && digitChar n != '\x1b') = true := by
  unfold digitChar
  split <;> decide

theorem natDigitsFuel_clean (fuel : Nat) :
    ∀ n : Nat, (natDigitsFuel fuel n).all (fun c => c != '\n' && c != '\x1b') = true := by
  induction fuel with
  | zero => intro n; simp [natDigitsFuel]
  | succ f ih =>
    intro n
    unfold natDigitsFuel
    split
    · simp [digitChar_clean]
    · simp [List.all_append, ih, digitChar_clean]

theorem natRepr_clean (n : Nat) : noNlEscB (natRepr n) = true := by
  simp [noNlEscB, natRepr, natDigitsFuel_clean]

theorem replicate_clean (m : Nat) (c : Char) (h1 : c != '\n') (h2 : c != '\x1b') :
    noNlEscB (String.mk (List.replicate m c)) = true := by
  simp only [noNlEscB]
  rw [List.all_eq_true]
  intro x hx
  rw [List.eq_of_mem_replicate hx]
  simp [h1, h2]

theorem pad04_clean (n : Nat) : noNlEscB (pad04 n) = true := by
  simp [pad04, noNlEscB_append, natRepr_clean, replicate_clean]

theorem padLevel8_clean (s : String) (h : noNlEscB s = true) :
    noNlEscB (padLevel8 s) = true := by
  simp [padLevel8, noNlEscB_append, h, replicate_clean]

theorem pad04_length (n : Nat) :
    (pad04 n).length = (4 - (natRepr n).length) + (natRepr n).length := by
  simp [pad04, String.length_append]

theorem pad04_min_length (n : Nat) : 4 ≤ (pad04 n).length := by
  rw [pad04_length]; omega

theorem natDigitsFuel_length_le (fuel : Nat) :
    ∀ n k : Nat, n < 10 ^ k → 1 ≤ k → (natDigitsFuel fuel n).length ≤ k := by
  induction fuel with
  | zero => intro n k _ _; simp [natDigitsFuel]
  | succ f ih =>
    intro n k hn hk
    unfold natDigitsFuel
    split
    · simpa using hk
    · rename_i h10
      have hk2 : 2 ≤ k := by
        by_contra hlt
        have : k = 1 := by omega
        subst this
        simp at hn
        omega
      have hdiv : n / 10 < 10 ^ (k - 1) := by
        rw [Nat.div_lt_iff_lt_mul (by norm_num : 0 < 10)]
        have : 10 ^ (k - 1) * 10 = 10 ^ k := by
          rw [← pow_succ]
          congr 1
          omega
        omega
      have := ih (n / 10) (k - 1) hdiv (by omega)
      simp [List.length_append]
      omega

theorem natRepr_length_le4 (n : Nat) (h : n ≤ 9999) : (natRepr n).length ≤ 4 := by
  have : (natDigitsFuel (n + 1) n).length ≤ 4 :=
    natDigitsFuel_length_le (n + 1) n 4 (by omega) (by omega)
  simpa [natRepr] using this

theorem hasKey_false_jget {d : JObj} {k : String} (h : hasKey d k = false) :
    jget d k = none := by
  unfold hasKey at h
  cases hj : jget d k
  · rfl
  · rw [hj] at h; simp at h

theorem levelVal_render {d : JObj} {lvl : String} (h : levelVal d = some lvl) :
    renderField d "level" = lvl := by
  unfold levelVal at h
  unfold renderField
  cases hj : jget d "level" <;> rw [hj] at h
  · simp at h
    simp [pyStr, ← h]
  · rename_i v
    cases v <;> simp at h
    rename_i s
    simp [pyStr, ← h]

/-- `isinstance`-style test: the parsed JSON value is a dict (the only
case in which `log_data.get` exists). -/
def isObj : Json → Bool
  | .obj _ => true
  | _ => false

/-- If `level` formats, `_process_log_entry` raises nothing. -/
theorem processLogEntry_ok {s : ServerState} {w : Bool} {d : JObj} {lvl : String}
    (hl : levelVal d = some lvl) :
    (processLogEntry s w (.obj d)).2 = none := by
  unfold processLogEntry
  simp only [hl]
  split <;> (try split) <;> rfl

/-- An ingestion POST that reaches `_process_log_entry` is answered 200
or 500, never anything else. -/
theorem handle_ingest_status (s : ServerState) (r : Request)
    (h : isJsonIngest r = true) :
    (handle s r).2 = 200 ∨ (handle s r).2 = 500 := by
  cases r with
  | get p => simp [isJsonIngest] at h
  | post p b w =>
    cases b with
    | empty => simp [isJsonIngest] at h
    | malformed => simp [isJsonIngest] at h
    | json j =>
      have hp : p = "/test" := by simpa [isJsonIngest] using h
      subst hp
      simp only [handle, doPOST, if_pos rfl]
      cases hm : (processLogEntry s w j).2 <;> simp [hm]

/-! ### Concrete inputs used by witnesses and counterexamples -/

/-- Fresh server, file persistence disabled. -/
def s0 : ServerState := initState false "received_logs.txt"

/-- Fresh server, file persistence enabled. -/
def s0f : ServerState := initState true "received_logs.txt"

/-- `\x7b"level": 5\x7d`: a valid JSON object whose `level` is not a string. -/
def dLevel5 : JObj := .cons "level" (.num 5) .nil

/-- `\x7b"line": null\x7d`: the key `line` is present but its value is null. -/
def dLineNull : JObj := .cons "line" .null .nil

/-- A server that has already accepted 9999 entries (reachable by 9999
valid posts, see `logCount_9999_reachable`). -/
def s9999 : ServerState :=
  { logCount := 9999, console := [], file := [], saveToFile := true,
    logFilename := "received_logs.txt" }

/-- `\x7b"message": "a\nb"\x7d`: a message containing a newline. -/
def dNewline : JObj := .cons "message" (.str "a\nb") .nil

/-- The posted object of concrete scenario 1. -/
def scenario1Obj : JObj :=
  .cons "timestamp" (.str "2024-01-01T00:00:00")
    (.cons "millis" (.num 123)
      (.cons "level" (.str "INFO")
        (.cons "core" (.num 0)
          (.cons "file" (.str "main.cpp")
            (.cons "function" (.str "setup")
              (.cons "line" (.num 10)
                (.cons "message" (.str "boot") .nil)))))))

def scenario1Req : Request := .post "/test" (.json (.obj scenario1Obj)) true

theorem countP_replicate_true {α : Type} (p : α → Bool) (a : α) (h : p a = true) :
    ∀ n : Nat, (List.replicate n a).countP p = n := by
  intro n
  induction n with
  | zero => simp
  | succ m ih => simp [List.replicate_succ, List.countP_cons, h, ih]

/-- The counter value 9999 of `s9999` is reachable: it is the count after
9999 accepted posts of the empty object. -/
theorem logCount_9999_reachable :
    (run s0f (List.replicate 9999 (.post "/test" (.json (.obj .nil)) true))).logCount = 9999 := by
  rw [run_logCount]
  rw [countJsonIngest, countP_replicate_true _ _ (by decide)]
  rfl

/-! ### Claims -/

/-- C1 (amended): for every POST to `/test` whose body is a valid JSON
object in which the key `level`, when present, maps to a JSON string
(this includes the empty object), the response status is 200 and
`logCount` increases by exactly 1. -/
theorem ingest_valid_object_ok (s : ServerState) (w : Bool) (d : JObj)
    (h : levelOk d = true) :
    (doPOST s "/test" (.json (.obj d)) w).2 = 200 ∧
    (doPOST s "/test" (.json (.obj d)) w).1.logCount = s.logCount + 1 := by
  unfold levelOk at h
  obtain ⟨lvl, hl⟩ := Option.isSome_iff_exists.mp h
  have h2 := processLogEntry_ok (s := s) (w := w) hl
  simp [doPOST, h2, processLogEntry_logCount]

/-- C1 witness: the empty object `\x7b\x7d` posted to a fresh server gets 200
and the counter becomes 1. -/
theorem ingest_valid_object_ok_witness :
    levelOk .nil = true ∧
    (doPOST s0 "/test" (.json (.obj .nil)) true).2 = 200 ∧
    (doPOST s0 "/test" (.json (.obj .nil)) true).1.logCount = s0.logCount + 1 :=
  ⟨by decide, ingest_valid_object_ok s0 true .nil (by decide)⟩

/-- C1 counterexample: `\x7b"level": 5\x7d` is a valid JSON object, yet the
response is 500 (Python raises at `f"\x7blevel:8s\x7d"`), not the 200 the claim
requires. -/
theorem ingest_nonstring_level_500 :
    (doPOST s0 "/test" (.json (.obj dLevel5)) true).2 = 500 ∧
    (doPOST s0 "/test" (.json (.obj dLevel5)) true).2 ≠ 200 := by decide

/-- C2: a POST to `/test` with an empty body (Content-Length 0) or a body
that is not syntactically valid JSON is answered 400 with the state -
counter, console sink and file sink - completely unchanged. -/
theorem ingest_bad_body_400 (s : ServerState) (w : Bool) :
    doPOST s "/test" .empty w = (s, 400) ∧
    doPOST s "/test" .malformed w = (s, 400) := by
  constructor <;> simp [doPOST]

/-- C3 (amended): `logCount` never decreases; across any single request it
grows by exactly 1 when the request is a POST to `/test` whose body is
syntactically valid JSON (those are answered 200 or 500) and by exactly 0
otherwise; in particular every request answered neither 200 nor 500
leaves the counter unchanged. -/
theorem logCount_step (s : ServerState) (r : Request) :
    s.logCount ≤ (handle s r).1.logCount ∧
    (handle s r).1.logCount = s.logCount + (if isJsonIngest r = true then 1 else 0) ∧
    ((handle s r).2 ≠ 200 → (handle s r).2 ≠ 500 →
      (handle s r).1.logCount = s.logCount) := by
  refine ⟨?_, handle_logCount s r, ?_⟩
  · rw [handle_logCount]; omega
  · intro h200 h500
    rw [handle_logCount]
    by_cases h : isJsonIngest r = true
    · rcases handle_ingest_status s r h with hs | hs
      · exact absurd hs h200
      · exact absurd hs h500
    · simp [h]

/-- C3 witness: a GET on an unknown path is answered 404 (neither 200 nor
500) and leaves the counter unchanged. -/
theorem logCount_step_witness :
    (handle s0 (.get "/nope")).2 ≠ 200 ∧ (handle s0 (.get "/nope")).2 ≠ 500 ∧
    (handle s0 (.get "/nope")).1.logCount = s0.logCount :=
  ⟨by decide, by decide,
    (logCount_step s0 (.get "/nope")).2.2 (by decide) (by decide)⟩

/-- C3 counterexample: posting the valid JSON body `5` yields a response
that is not 200, yet the counter increases by 1, refuting "increases by
exactly 0 for every request whose response is not 200". -/
theorem logCount_incremented_on_500_response :
    (handle s0 (.post "/test" (.json (.num 5)) true)).2 ≠ 200 ∧
    (handle s0 (.post "/test" (.json (.num 5)) true)).1.logCount = s0.logCount + 1 := by
  decide

/-- C4 (amended): after any sequence of requests, GET `/status` reports
`logs_received` equal to the number of prior POSTs to `/test` whose body
was syntactically valid JSON - those answered 200 or 500 - not only the
200-responses. -/
theorem status_logs_received_counts_parsed_ingest (b : Bool) (fn : String)
    (rs : List Request) :
    ((doGET (run (initState b fn) rs) "/status").body).map
        (fun x => x.logs_received) = some (countJsonIngest rs) := by
  simp [doGET, run_logCount, initState]

/-- C4 counterexample: after a single POST of the valid JSON body `5`,
answered 500, GET `/status` reports `logs_received = 1` although the
number of prior 200-responses from the ingestion path is 0. -/
theorem status_overcounts_vs_200_responses :
    ((doGET (run s0 [.post "/test" (.json (.num 5)) true]) "/status").body).map
        (fun x => x.logs_received) = some 1 ∧
    (handle s0 (.post "/test" (.json (.num 5)) true)).2 = 500 := by
  decide

/-- C5: for every accepted entry the console line carries the location
`file:function:line` exactly when the key `line` is present in the posted
object (whatever its value, e.g. null) and `file:function` exactly when
it is absent - the branch is decided by key presence alone. -/
theorem location_branch_on_line_presence (s : ServerState) (d : JObj) (lvl : String)
    (h : levelVal d = some lvl) :
    (hasKey d "line" = true →
      (processLogEntry s true (.obj d)).1.console =
        s.console ++ [colorOf lvl ++
          ("[" ++ pad04 (s.logCount + 1) ++ "] [" ++ renderField d "timestamp"
            ++ "] [" ++ renderField d "millis" ++ " ms] [" ++ padLevel8 lvl
            ++ "] [Core " ++ renderField d "core" ++ "] ["
            ++ (renderField d "file" ++ ":" ++ renderField d "function" ++ ":"
                  ++ renderField d "line")
            ++ "] " ++ renderField d "message") ++ "\x1b[0m"]) ∧
    (hasKey d "line" = false →
      (processLogEntry s true (.obj d)).1.console =
        s.console ++ [colorOf lvl ++
          ("[" ++ pad04 (s.logCount + 1) ++ "] [" ++ renderField d "timestamp"
            ++ "] [" ++ renderField d "millis" ++ " ms] [" ++ padLevel8 lvl
            ++ "] [Core " ++ renderField d "core" ++ "] ["
            ++ (renderField d "file" ++ ":" ++ renderField d "function")
            ++ "] " ++ renderField d "message") ++ "\x1b[0m"]) := by
  constructor
  · intro hk
    unfold processLogEntry
    simp only [h]
    split <;> simp [consoleLineOf, lineCore, locationOf, hk]
  · intro hk
    unfold processLogEntry
    simp only [h]
    split <;> simp [consoleLineOf, lineCore, locationOf, hk]

/-- C5 witness: `\x7b"line": null\x7d` has the key present with a null value,
and the location takes the `file:function:line` branch (rendering the
null as `None`), demonstrating presence-based, not value-based,
branching. -/
theorem location_branch_witness :
    levelVal dLineNull = some "N/A" ∧
    ((hasKey dLineNull "line" = true →
      (processLogEntry s0 true (.obj dLineNull)).1.console =
        s0.console ++ [colorOf "N/A" ++
          ("[" ++ pad04 (s0.logCount + 1) ++ "] [" ++ renderField dLineNull "timestamp"
            ++ "] [" ++ renderField dLineNull "millis" ++ " ms] [" ++ padLevel8 "N/A"
            ++ "] [Core " ++ renderField dLineNull "core" ++ "] ["
            ++ (renderField dLineNull "file" ++ ":" ++ renderField dLineNull "function" ++ ":"
                  ++ renderField dLineNull "line")
            ++ "] " ++ renderField dLineNull "message") ++ "\x1b[0m"]) ∧
    (hasKey dLineNull "line" = false →
      (processLogEntry s0 true (.obj dLineNull)).1.console =
        s0.console ++ [colorOf "N/A" ++
          ("[" ++ pad04 (s0.logCount + 1) ++ "] [" ++ renderField dLineNull "timestamp"
            ++ "] [" ++ renderField dLineNull "millis" ++ " ms] [" ++ padLevel8 "N/A"
            ++ "] [Core " ++ renderField dLineNull "core" ++ "] ["
            ++ (renderField dLineNull "file" ++ ":" ++ renderField dLineNull "function")
            ++ "] " ++ renderField dLineNull "message") ++ "\x1b[0m"])) :=
  ⟨by decide, location_branch_on_line_presence s0 dLineNull "N/A" (by decide)⟩

/-- C6: every known field whose key is absent from the posted object
renders as the literal placeholder `N/A` - never as the empty string and
never as a null rendering (`None`). -/
theorem missing_field_renders_na (d : JObj) (k : String)
    (_hk : k ∈ logFields) (h : hasKey d k = false) :
    renderField d k = "N/A" ∧ renderField d k ≠ "" ∧ renderField d k ≠ "None" := by
  have hj := hasKey_false_jget h
  unfold renderField
  rw [hj]
  exact ⟨rfl, by decide, by decide⟩

/-- C6 witness: `timestamp` is a known field; absent from the empty
object, it renders as `N/A`. -/
theorem missing_field_renders_na_witness :
    "timestamp" ∈ logFields ∧ hasKey .nil "timestamp" = false ∧
    (renderField .nil "timestamp" = "N/A" ∧ renderField .nil "timestamp" ≠ "" ∧
      renderField .nil "timestamp" ≠ "None") :=
  ⟨by decide, by decide, missing_field_renders_na .nil "timestamp" (by decide) (by decide)⟩

/-- C7: with the file sink enabled, a failing file write leaves the
response at 200, keeps the counter increment, leaves the file unchanged,
and reports the failure on the console after the log line. -/
theorem file_write_failure_keeps_200 (s : ServerState) (d : JObj) (lvl : String)
    (hs : s.saveToFile = true) (h : levelVal d = some lvl) :
    (doPOST s "/test" (.json (.obj d)) false).2 = 200 ∧
    (doPOST s "/test" (.json (.obj d)) false).1.logCount = s.logCount + 1 ∧
    (doPOST s "/test" (.json (.obj d)) false).1.file = s.file ∧
    (doPOST s "/test" (.json (.obj d)) false).1.console =
      s.console ++ [consoleLineOf (s.logCount + 1) lvl d, "Error writing to file"] := by
  have hstate : processLogEntry s false (.obj d) =
      ({ s with
          logCount := s.logCount + 1
          console := s.console ++ [consoleLineOf (s.logCount + 1) lvl d,
            "Error writing to file"] }, none) := by
    unfold processLogEntry
    simp only [h]
    simp [hs]
  simp [doPOST, hstate]

/-- C7 witness: posting the empty object to a fresh persistence-enabled
server whose file write fails still yields 200 and counter 1. -/
theorem file_write_failure_keeps_200_witness :
    s0f.saveToFile = true ∧ levelVal .nil = some "N/A" ∧
    ((doPOST s0f "/test" (.json (.obj .nil)) false).2 = 200 ∧
     (doPOST s0f "/test" (.json (.obj .nil)) false).1.logCount = s0f.logCount + 1 ∧
     (doPOST s0f "/test" (.json (.obj .nil)) false).1.file = s0f.file ∧
     (doPOST s0f "/test" (.json (.obj .nil)) false).1.console =
       s0f.console ++ [consoleLineOf (s0f.logCount + 1) "N/A" .nil,
         "Error writing to file"]) :=
  ⟨rfl, by decide, file_write_failure_keeps_200 s0f .nil "N/A" rfl (by decide)⟩

/-- C8 (amended): with persistence enabled and the write succeeding, each
accepted entry whose rendered field values contain no newline and no ESC
character appends exactly one chunk, consisting of the colour-free
`[NNNN] [timestamp] [millis ms] [LEVEL   ] [Core C] [location] message`
core followed by a single terminating newline; the core contains neither
newlines nor escape characters, and the sequence number is zero-padded to
a minimum of four digits - exactly four for the first 9999 entries. -/
theorem file_line_shape (s : ServerState) (d : JObj) (lvl : String)
    (hs : s.saveToFile = true) (h : levelVal d = some lvl)
    (hc : cleanFieldsB d = true) :
    (processLogEntry s true (.obj d)).1.file =
      s.file ++ [lineCore (s.logCount + 1) lvl d ++ "\n"] ∧
    noNlEscB (lineCore (s.logCount + 1) lvl d) = true ∧
    4 ≤ (pad04 (s.logCount + 1)).length ∧
    (s.logCount + 1 ≤ 9999 → (pad04 (s.logCount + 1)).length = 4) := by
  have hcl : ∀ k ∈ logFields, noNlEscB (renderField d k) = true := by
    unfold cleanFieldsB at hc
    exact fun k hk => List.all_eq_true.mp hc k hk
  have hlvl : noNlEscB lvl = true := by
    have hx := hcl "level" (by decide)
    rwa [levelVal_render h] at hx
  refine ⟨?_, ?_, pad04_min_length _, ?_⟩
  · unfold processLogEntry
    simp only [h]
    simp [hs]
  · unfold lineCore locationOf
    by_cases hk : hasKey d "line" = true <;>
      simp [hk, noNlEscB_append, pad04_clean, padLevel8_clean _ hlvl,
        hcl "timestamp" (by decide), hcl "millis" (by decide),
        hcl "core" (by decide), hcl "file" (by decide),
        hcl "function" (by decide), hcl "line" (by decide),
        hcl "message" (by decide)] <;> decide
  · intro hle
    rw [pad04_length]
    have := natRepr_length_le4 (s.logCount + 1) hle
    omega

/-- C8 witness: the empty object appended to a fresh persistence-enabled
server produces one clean newline-terminated line with a 4-digit
sequence number. -/
theorem file_line_shape_witness :
    s0f.saveToFile = true ∧ levelVal .nil = some "N/A" ∧ cleanFieldsB .nil = true ∧
    ((processLogEntry s0f true (.obj .nil)).1.file =
      s0f.file ++ [lineCore (s0f.logCount + 1) "N/A" .nil ++ "\n"] ∧
     noNlEscB (lineCore (s0f.logCount + 1) "N/A" .nil) = true ∧
     4 ≤ (pad04 (s0f.logCount + 1)).length ∧
     (s0f.logCount + 1 ≤ 9999 → (pad04 (s0f.logCount + 1)).length = 4)) :=
  ⟨rfl, by decide, by decide, file_line_shape s0f .nil "N/A" rfl (by decide) (by decide)⟩

/-- C8 counterexample: the 10000th accepted entry (state `s9999`) with
message `"a\nb"` is accepted (no raise, hence a 200 response), yet the
appended chunk contains two newlines - it is not one newline-terminated
line - and its sequence number `10000` is 5 digits wide, not the claimed
zero-padded 4 digits. -/
theorem file_line_interior_newline_and_wide_seq :
    ((processLogEntry s9999 true (.obj dNewline)).1.file.headD "").data.count '\n' = 2 ∧
    (pad04 (processLogEntry s9999 true (.obj dNewline)).1.logCount).length = 5 ∧
    (processLogEntry s9999 true (.obj dNewline)).2 = none := by
  decide

/-- C9 (amended): the scenario-1 POST to a fresh server is answered 200,
the counter becomes 1, and the single console line is the green-coloured
`[0001] [2024-01-01T00:00:00] [123 ms] [INFO    ] [Core 0]
[main.cpp:setup:10] boot` - ending with `[main.cpp:setup:10] boot`
immediately followed by the ANSI reset sequence, which is the true final
text of the line. -/
theorem scenario1_console_line :
    (handle s0 scenario1Req).2 = 200 ∧
    (handle s0 scenario1Req).1.logCount = 1 ∧
    (handle s0 scenario1Req).1.console =
      ["\x1b[32m[0001] [2024-01-01T00:00:00] [123 ms] [INFO    ] [Core 0] [main.cpp:setup:10] boot\x1b[0m"] := by
  decide

/-- C9 counterexample: the scenario-1 console line does NOT end with the
characters `[main.cpp:setup:10] boot`: its last four characters are not
`boot` (they are `[0m` of the ANSI reset sequence, which the code appends
after the message). -/
theorem scenario1_line_not_ending_boot :
    ((handle s0 scenario1Req).1.console.headD "").data.reverse.take 4 ≠
      ['t', 'o', 'o', 'b'] := by
  decide

/-- C10: a POST to `/test` whose body is valid JSON but not an object is
answered 500, and `logCount` has nevertheless already been incremented by
1 before the failure (`LogReceiver.log_count += 1` precedes the failing
`log_data.get`). -/
theorem nonobject_json_500_increments (s : ServerState) (w : Bool) (j : Json)
    (h : isObj j = false) :
    (doPOST s "/test" (.json j) w).2 = 500 ∧
    (doPOST s "/test" (.json j) w).1.logCount = s.logCount + 1 := by
  have h2 : (processLogEntry s w j).2.isSome = true := by
    cases j <;> simp_all [processLogEntry, isObj]
  obtain ⟨msg, hm⟩ := Option.isSome_iff_exists.mp h2
  simp [doPOST, hm, processLogEntry_logCount]

/-- C10 witness: the body `5` (valid JSON, not an object) gets 500 with
the counter incremented to 1. -/
theorem nonobject_json_500_increments_witness :
    isObj (.num 5) = false ∧
    (doPOST s0 "/test" (.json (.num 5)) true).2 = 500 ∧
    (doPOST s0 "/test" (.json (.num 5)) true).1.logCount = s0.logCount + 1 :=
  ⟨by decide, nonobject_json_500_increments s0 true (.num 5) (by decide)⟩
